import Mathlib

/-!
Shallow embedding of the channel video extractor
(`src/pytube/contrib/channel.py`) from the pytube2 repository.

A page payload is the parsed JSON document (`json.loads raw_json` is
modelled by working directly on the parsed tree).  Python subscripting,
slicing and iteration on JSON trees are modelled by explicit operations
returning `Except PyErr`, where `PyErr` distinguishes the exception
classes the source code catches: `KeyError`, `IndexError`, `TypeError`.
Mutable object state (`self._visitor_data`) is threaded explicitly: the
extractor takes the stored visitor value and returns the new one next to
the result, and a raised exception is an `Except.error` result.
-/

inductive PyErr where
  | keyError
  | indexError
  | typeError
deriving Repr, DecidableEq

/-- Parsed JSON values.  Numbers are modelled as integers (the payloads
the extractor inspects never use fractional numbers). -/
inductive JSON where
  | null
  | bool (b : Bool)
  | num (n : Int)
  | str (s : String)
  | arr (elems : List JSON)
  | obj (fields : List (String × JSON))
deriving Repr

/-- Python `j[key]` for a string key: dictionary lookup raising
`KeyError` on a missing key, `TypeError` when `j` is not a dictionary. -/
def getKey (j : JSON) (k : String) : Except PyErr JSON :=
  match j with
  | .obj fields =>
      match fields.lookup k with
      | some v => .ok v
      | none => .error .keyError
  | _ => .error .typeError

/-- Python `j[i]` for an integer index: list and string indexing with
negative-index wraparound and `IndexError` out of range; a dictionary
with string keys raises `KeyError` for an integer key; other values
raise `TypeError`. -/
def getIdx (j : JSON) (i : Int) : Except PyErr JSON :=
  match j with
  | .arr xs =>
      let n : Int := xs.length
      let i' := if i < 0 then i + n else i
      if i' < 0 then .error .indexError
      else
        match xs.get? i'.toNat with
        | some x => .ok x
        | none => .error .indexError
  | .str s =>
      let n : Int := s.data.length
      let i' := if i < 0 then i + n else i
      if i' < 0 then .error .indexError
      else
        match s.data.get? i'.toNat with
        | some c => .ok (.str (String.mk [c]))
        | none => .error .indexError
  | .obj _ => .error .keyError
  | _ => .error .typeError

/-- Python `v[-11:]`: the last up-to-eleven characters of a string or
elements of a list (a string shorter than eleven characters is returned
whole, as in Python); other values raise `TypeError`. -/
def sliceLast11 : JSON → Except PyErr JSON
  | .str s => .ok (.str (String.mk (s.data.drop (s.data.length - 11))))
  | .arr xs => .ok (.arr (xs.drop (xs.length - 11)))
  | _ => .error .typeError

/-- Python `v[:-1]`: all but the last element of a list or character of
a string; other values raise `TypeError`. -/
def pySliceUpToLast : JSON → Except PyErr JSON
  | .arr xs => .ok (.arr xs.dropLast)
  | .str s => .ok (.str (String.mk s.data.dropLast))
  | _ => .error .typeError

/-- Python `for x in j`: lists iterate their elements, strings their
one-character substrings, dictionaries their keys (in insertion order);
other values raise `TypeError`. -/
def pyIter : JSON → Except PyErr (List JSON)
  | .arr xs => .ok xs
  | .str s => .ok (s.data.map fun c => .str (String.mk [c]))
  | .obj kvs => .ok (kvs.map fun kv => .str kv.1)
  | _ => .error .typeError

mutual
/-- Python `repr` of a parsed JSON value (escaping of special characters
inside nested strings is not modelled; the payloads of interest
interpolate plain identifier strings). -/
def pyRepr : JSON → String
  | .null => "None"
  | .bool true => "True"
  | .bool false => "False"
  | .num n => toString n
  | .str s => "\x27" ++ s ++ "\x27"
  | .arr xs => "[" ++ String.intercalate ", " (pyReprList xs) ++ "]"
  | .obj kvs => "\x7b" ++ String.intercalate ", " (pyReprPairs kvs) ++ "\x7d"

/-- Helper of `pyRepr` for list elements. -/
def pyReprList : List JSON → List String
  | [] => []
  | x :: xs => pyRepr x :: pyReprList xs

/-- Helper of `pyRepr` for dictionary entries. -/
def pyReprPairs : List (String × JSON) → List String
  | [] => []
  | (k, v) :: kvs => ("\x27" ++ k ++ "\x27: " ++ pyRepr v) :: pyReprPairs kvs
end

/-- Python `str`, as used by f-string interpolation: a string
interpolates verbatim, any other value via its `repr`. -/
def pyStr (j : JSON) : String :=
  match j with
  | .str s => s
  | j => pyRepr j

/-- The initial-page videos-tab path of `_extract_videos`:
`initial_data["contents"]["twoColumnBrowseResultsRenderer"]["tabs"][1]
["tabRenderer"]["content"]["richGridRenderer"]["contents"]`. -/
def locateVideosTab (d : JSON) : Except PyErr JSON := do
  let a ← getKey d "contents"
  let b ← getKey a "twoColumnBrowseResultsRenderer"
  let c ← getKey b "tabs"
  let e ← getIdx c 1
  let f ← getKey e "tabRenderer"
  let g ← getKey f "content"
  let h ← getKey g "richGridRenderer"
  getKey h "contents"

/-- The initial-page shorts-tab path of `_extract_videos`: the same
chain with tab index 2. -/
def locateShortsTab (d : JSON) : Except PyErr JSON := do
  let a ← getKey d "contents"
  let b ← getKey a "twoColumnBrowseResultsRenderer"
  let c ← getKey b "tabs"
  let e ← getIdx c 2
  let f ← getKey e "tabRenderer"
  let g ← getKey f "content"
  let h ← getKey g "richGridRenderer"
  getKey h "contents"

/-- The visitor-data path of `_extract_videos`:
`initial_data["responseContext"]["webResponseContextExtensionData"]
["ytConfigData"]["visitorData"]`. -/
def locateVisitorData (d : JSON) : Except PyErr JSON := do
  let a ← getKey d "responseContext"
  let b ← getKey a "webResponseContextExtensionData"
  let c ← getKey b "ytConfigData"
  getKey c "visitorData"

/-- The legacy continuation-response path of `_extract_videos`:
`initial_data[1]["response"]["onResponseReceivedActions"][0]
["appendContinuationItemsAction"]["continuationItems"]`. -/
def locateLegacyContinuation (d : JSON) : Except PyErr JSON := do
  let a ← getIdx d 1
  let b ← getKey a "response"
  let c ← getKey b "onResponseReceivedActions"
  let e ← getIdx c 0
  let f ← getKey e "appendContinuationItemsAction"
  getKey f "continuationItems"

/-- The current flat continuation-response path of `_extract_videos`:
`initial_data["onResponseReceivedActions"][0]
["appendContinuationItemsAction"]["continuationItems"]`. -/
def locateFlatContinuation (d : JSON) : Except PyErr JSON := do
  let a ← getKey d "onResponseReceivedActions"
  let b ← getIdx a 0
  let c ← getKey b "appendContinuationItemsAction"
  getKey c "continuationItems"

/-- The inner `try`/`except` of `_extract_videos`: the videos-tab path,
falling back to the shorts-tab path on `KeyError`, `IndexError` or
`TypeError`. -/
def locateInitialTabs (d : JSON) : Except PyErr JSON :=
  match locateVideosTab d with
  | .ok v => .ok v
  | .error _ => locateShortsTab d

/-- The two continuation-response attempts of `_extract_videos`: the
legacy two-element-array shape, falling back to the flat-object shape on
`KeyError`, `IndexError` or `TypeError`. -/
def locateContinuationShapes (d : JSON) : Except PyErr JSON :=
  match locateLegacyContinuation d with
  | .ok v => .ok v
  | .error _ => locateFlatContinuation d

/-- The whole list-locating stage of `_extract_videos` (lines 187 to
224 of the source).  Returns `none` when every shape attempt failed
(the `return [], None` branch); otherwise the located video-list node
together with the new visitor-data value when the assignment
`self._visitor_data = ...` executed (`none` means the stored value is
left unchanged).  Note that the visitor-data lookup sits inside the
outer `try`: when it fails, the node located via the initial-page tabs
is discarded and the continuation shapes are attempted instead. -/
def locatePhase (d : JSON) : Option (JSON × Option JSON) :=
  match locateInitialTabs d with
  | .ok vids =>
      match locateVisitorData d with
      | .ok vd => some (vids, some vd)
      | .error _ =>
          match locateContinuationShapes d with
          | .ok vids2 => some (vids2, none)
          | .error _ => none
  | .error _ =>
      match locateContinuationShapes d with
      | .ok vids2 => some (vids2, none)
      | .error _ => none

/-- The continuation-marker lookup of `_extract_videos`:
`videos[-1]["continuationItemRenderer"]["continuationEndpoint"]
["continuationCommand"]["token"]`. -/
def extractContinuationToken (videos : JSON) : Except PyErr JSON := do
  let last ← getIdx videos (-1)
  let a ← getKey last "continuationItemRenderer"
  let b ← getKey a "continuationEndpoint"
  let c ← getKey b "continuationCommand"
  getKey c "token"

/-- The continuation-marker stage of `_extract_videos` (lines 226 to
233).  On success the trailing marker is dropped (`videos = videos[:-1]`)
and the token is returned; the `except` clause there catches only
`KeyError` and `IndexError`, so a `TypeError` propagates out.  The
continuation value mirrors the Python variable: `JSON.null` plays the
role of `None` (no token). -/
def continuationPhase (videos : JSON) : Except PyErr (JSON × JSON) :=
  match extractContinuationToken videos with
  | .ok tok =>
      match pySliceUpToLast videos with
      | .ok trimmed => .ok (trimmed, tok)
      | .error e => .error e
  | .error .keyError => .ok (videos, .null)
  | .error .indexError => .ok (videos, .null)
  | .error .typeError => .error .typeError

/-- The standard video-renderer lookup:
`x["richItemRenderer"]["content"]["videoRenderer"]["videoId"]`. -/
def pathVideoId (x : JSON) : Except PyErr JSON := do
  let a ← getKey x "richItemRenderer"
  let b ← getKey a "content"
  let c ← getKey b "videoRenderer"
  getKey c "videoId"

/-- One iteration of the first extraction loop:
`f"/watch?v={x[...]["videoRenderer"]["videoId"]}"`. -/
def standardId (x : JSON) : Except PyErr String := do
  let v ← pathVideoId x
  .ok ("/watch?v=" ++ pyStr v)

/-- The short-video lookup:
`x["richItemRenderer"]["content"]["shortsLockupViewModel"]["entityId"]`. -/
def pathEntityId (x : JSON) : Except PyErr JSON := do
  let a ← getKey x "richItemRenderer"
  let b ← getKey a "content"
  let c ← getKey b "shortsLockupViewModel"
  getKey c "entityId"

/-- One iteration of the second extraction loop:
`f"/watch?v={x[...]["shortsLockupViewModel"]["entityId"][-11:]}"`. -/
def shortId (x : JSON) : Except PyErr String := do
  let e ← pathEntityId x
  let v ← sliceLast11 e
  .ok ("/watch?v=" ++ pyStr v)

/-- The first extraction `for` loop of `_extract_videos`, inside the
`try` that catches `KeyError`, `IndexError` and `TypeError`: appends
standard-shape watch paths to the accumulator until an element fails,
returning the partial accumulator and whether the loop completed.  The
partially filled `videos_url` list survives into the `except` branch. -/
def runStandardLoop : List JSON → List String → List String × Bool
  | [], acc => (acc, true)
  | x :: xs, acc =>
      match standardId x with
      | .ok u => runStandardLoop xs (acc ++ [u])
      | .error _ => (acc, false)

/-- The second extraction `for` loop of `_extract_videos` (the `except`
branch): appends short-shape watch paths to the accumulator inherited
from the first loop; it is not guarded by a `try`, so any failure
propagates out of `_extract_videos`. -/
def runShortLoop : List JSON → List String → Except PyErr (List String)
  | [], acc => .ok acc
  | x :: xs, acc =>
      match shortId x with
      | .ok u => runShortLoop xs (acc ++ [u])
      | .error e => .error e

/-- Short-shape extraction of every element of a list, used to state
when the second loop succeeds on the whole batch. -/
def shortIdsAll : List JSON → Except PyErr (List String)
  | [] => .ok []
  | x :: xs =>
      match shortId x with
      | .ok y =>
          match shortIdsAll xs with
          | .ok ys => .ok (y :: ys)
          | .error e => .error e
      | .error e => .error e

/-- The identifier-extraction stage of `_extract_videos` (lines 236 to
252): iterate the (trimmed) video-list node, try the standard shape for
the whole batch, and on any failure rerun the whole batch through the
short-video shape, keeping whatever the first loop had already
appended.  A failed iteration attempt (`for x in videos` over a
non-iterable) raises the same error from both loops, so it is modelled
as a single failure. -/
def extractIdsPhase (videos : JSON) : Except PyErr (List String) :=
  match pyIter videos with
  | .error e => .error e
  | .ok xs =>
      match runStandardLoop xs [] with
      | (acc, true) => .ok acc
      | (acc, false) => runShortLoop xs acc

/-- Modelled from the spec: the helper `uniqueify` (from the helpers
module, not part of the sources provided) deduplicates a list, order
preserving, keeping the first occurrence of each element. -/
def uniqueify : List String → List String
  | [] => []
  | x :: xs => x :: (uniqueify xs).filter (fun y => y != x)

/-- Everything `_extract_videos` does after a video-list node has been
located: continuation-marker inspection, identifier extraction, and
`uniqueify` on the result. -/
def processLocated (videos : JSON) : Except PyErr (List String × JSON) :=
  match continuationPhase videos with
  | .error e => .error e
  | .ok (trimmed, cont) =>
      match extractIdsPhase trimmed with
      | .error e => .error e
      | .ok raw => .ok (uniqueify raw, cont)

/-- `Channel._extract_videos`, with the parsed payload in place of the
raw JSON text and the stored `self._visitor_data` passed and returned
explicitly.  The first component is the returned pair (or the raised
exception), the second the visitor-data field after the call. -/
def extract_videos (visitor0 : JSON) (initial_data : JSON) :
    Except PyErr (List String × JSON) × JSON :=
  match locatePhase initial_data with
  | none => (.ok ([], .null), visitor0)
  | some (videos, upd) =>
      (processLocated videos,
       match upd with
       | some vd => vd
       | none => visitor0)

/-- `Channel._build_continuation_url`: the browse-endpoint URL keyed by
the API key, the fixed client headers, and the POST body embedding the
continuation token and the stored visitor data. -/
def build_continuation_url (yt_api_key : String) (visitor_data : JSON)
    (continuation : String) : String × List (String × String) × JSON :=
  ("https://www.youtube.com/youtubei/v1/browse?key=" ++ yt_api_key,
   [("X-YouTube-Client-Name", "1"),
    ("X-YouTube-Client-Version", "2.20200720.00.02")],
   .obj [("continuation", .str continuation),
         ("context", .obj
           [("client", .obj
             [("clientName", .str "WEB"),
              ("visitorData", visitor_data),
              ("clientVersion", .str "2.20200720.00.02")])])])

/-- "Last n characters of s", the reading of the specification text for
short-video identifiers (a shorter string is returned whole). -/
def lastChars (n : Nat) (s : String) : String :=
  String.mk (s.data.drop (s.data.length - n))

/-- A video-list element carrying only the standard video-renderer
shape, with the given video id. -/
def mkStd (vid : String) : JSON :=
  .obj [("richItemRenderer", .obj
    [("content", .obj
      [("videoRenderer", .obj [("videoId", .str vid)])])])]

/-- A video-list element carrying only the short-video shape, with the
given entity id. -/
def mkShort (eid : String) : JSON :=
  .obj [("richItemRenderer", .obj
    [("content", .obj
      [("shortsLockupViewModel", .obj [("entityId", .str eid)])])])]

/-- A video-list element carrying both renderer shapes at once. -/
def exampleBoth : JSON :=
  .obj [("richItemRenderer", .obj
    [("content", .obj
      [("videoRenderer", .obj [("videoId", .str "AAAAAAAAAAA")]),
       ("shortsLockupViewModel", .obj
         [("entityId", .str "shorts-BBBBBBBBBBB")])])])]

/-- A trailing continuation-marker element with a concrete token. -/
def exampleMarker : JSON :=
  .obj [("continuationItemRenderer", .obj
    [("continuationEndpoint", .obj
      [("continuationCommand", .obj [("token", .str "TOKEN-12345")])])])]

/-- A flat-object continuation-response payload around the given
continuation-items node. -/
def flatWrap (items : JSON) : JSON :=
  .obj [("onResponseReceivedActions", .arr
    [.obj [("appendContinuationItemsAction", .obj
      [("continuationItems", items)])]])]

/-- An initial-page payload whose second tab holds the given video-list
node; it has no `responseContext`, so the visitor-data lookup fails. -/
def initialNoVisitor (items : JSON) : JSON :=
  .obj [("contents", .obj
    [("twoColumnBrowseResultsRenderer", .obj
      [("tabs", .arr
        [.null,
         .obj [("tabRenderer", .obj
           [("content", .obj
             [("richGridRenderer", .obj [("contents", items)])])])]])])])]

/-- Initial-page payload locating `[mkStd "DDDDDDDDDDD"]` via the
videos tab but lacking the visitor-data location. -/
def exampleP2 : JSON := initialNoVisitor (.arr [mkStd "DDDDDDDDDDD"])

/-- Continuation payload whose first element extracts under both
shapes and whose second extracts only under the short shape. -/
def exampleP3 : JSON :=
  flatWrap (.arr [exampleBoth, mkShort "shorts-CCCCCCCCCCC"])

/-- Continuation payload whose video list ends in a bare string, a
shape on which the continuation-marker lookup hits a type mismatch. -/
def exampleP4 : JSON := flatWrap (.arr [.str "oops"])

/-- Continuation payload whose video list ends in a number: the last
element matches no marker shape, and the lookup hits a type mismatch. -/
def exampleP5 : JSON := flatWrap (.arr [mkStd "GGGGGGGGGGG", .num 7])

/-- Continuation payload with a duplicated standard video id. -/
def exampleP6 : JSON :=
  flatWrap (.arr [mkStd "EEEEEEEEEEE", mkStd "EEEEEEEEEEE",
                  mkStd "FFFFFFFFFFF"])

/-- Continuation payload whose located video list is empty. -/
def exampleP10 : JSON := flatWrap (.arr [])

theorem uniqueify_nodup (l : List String) : (uniqueify l).Nodup := by
  induction l with
  | nil => simp [uniqueify]
  | cons x xs ih =>
      rw [uniqueify]
      refine List.nodup_cons.mpr ⟨?_, ih.filter _⟩
      simp [List.mem_filter]

theorem mem_uniqueify (l : List String) (a : String) :
    a ∈ uniqueify l ↔ a ∈ l := by
  induction l with
  | nil => simp [uniqueify]
  | cons x xs ih =>
      rw [uniqueify]
      by_cases hax : a = x
      · subst hax; simp
      · simp [List.mem_filter, ih, hax]

theorem uniqueify_sublist (l : List String) : List.Sublist (uniqueify l) l := by
  induction l with
  | nil => simp [uniqueify]
  | cons x xs ih =>
      rw [uniqueify]
      exact ((List.filter_sublist _).trans ih).cons₂ x

theorem filter_bne_comm (x y : String) (l : List String) :
    (l.filter (fun z => z != y)).filter (fun z => z != x)
      = (l.filter (fun z => z != x)).filter (fun z => z != y) := by
  rw [List.filter_filter, List.filter_filter]
  exact List.filter_congr fun a _ => Bool.and_comm _ _

theorem filter_bne_idem (x : String) (l : List String) :
    (l.filter (fun z => z != x)).filter (fun z => z != x)
      = l.filter (fun z => z != x) := by
  induction l with
  | nil => rfl
  | cons a l ih =>
      by_cases hax : a = x <;> simp [List.filter_cons, hax, ih]

theorem uniqueify_filter_ne (x : String) (l : List String) :
    uniqueify (l.filter (fun y => y != x))
      = (uniqueify l).filter (fun y => y != x) := by
  induction l with
  | nil => rfl
  | cons y ys ih =>
      by_cases hyx : y = x
      · subst hyx
        rw [uniqueify]
        simp only [List.filter_cons, bne_self_eq_false, Bool.false_eq_true,
          if_false, ih, filter_bne_idem]
      · rw [List.filter_cons, if_pos (by simp [hyx]), uniqueify, uniqueify,
          ih, List.filter_cons, if_pos (by simp [hyx]), filter_bne_comm]

theorem uniqueify_cons_filter (x : String) (l : List String) :
    uniqueify (x :: l) = x :: uniqueify (l.filter (fun y => y != x)) := by
  rw [uniqueify_filter_ne, uniqueify]

theorem runShortLoop_ok (xs : List JSON) :
    ∀ acc ys, shortIdsAll xs = .ok ys → runShortLoop xs acc = .ok (acc ++ ys) := by
  induction xs with
  | nil =>
      intro acc ys h
      rw [shortIdsAll] at h
      injection h with h
      subst h
      simp [runShortLoop]
  | cons x xs ih =>
      intro acc ys h
      rw [shortIdsAll] at h
      cases hx : shortId x with
      | error e => rw [hx] at h; cases h
      | ok y =>
          rw [hx] at h
          cases hs : shortIdsAll xs with
          | error e => rw [hs] at h; cases h
          | ok ys' =>
              rw [hs] at h
              injection h with h
              subst h
              have step : runShortLoop (x :: xs) acc = runShortLoop xs (acc ++ [y]) := by
                rw [runShortLoop, hx]
              rw [step, ih (acc ++ [y]) ys' hs]
              simp

/-- C1: on a payload where all four shape-locating attempts fail (for
example the empty JSON object), `_extract_videos` returns the empty
identifier list and no continuation token, raises no exception, and
leaves the stored visitor data untouched. -/
theorem extract_videos_all_shapes_fail (v d : JSON)
    (h1 : ∃ e, locateVideosTab d = .error e)
    (h2 : ∃ e, locateShortsTab d = .error e)
    (h3 : ∃ e, locateLegacyContinuation d = .error e)
    (h4 : ∃ e, locateFlatContinuation d = .error e) :
    extract_videos v d = (.ok ([], .null), v) := by
  obtain ⟨e1, h1⟩ := h1
  obtain ⟨e2, h2⟩ := h2
  obtain ⟨e3, h3⟩ := h3
  obtain ⟨e4, h4⟩ := h4
  simp [extract_videos, locatePhase, locateInitialTabs,
    locateContinuationShapes, h1, h2, h3, h4]

/-- C1 witness: the empty JSON object. -/
theorem extract_videos_all_shapes_fail_witness :
    extract_videos .null (.obj []) = (.ok ([], .null), .null) :=
  extract_videos_all_shapes_fail .null (.obj [])
    ⟨.keyError, rfl⟩ ⟨.keyError, rfl⟩ ⟨.keyError, rfl⟩ ⟨.keyError, rfl⟩

/-- C8: the pair returned by `_extract_videos` depends only on the
payload, never on the stored visitor data, so classifying the same
page payload twice, in any channel state, yields identical results. -/
theorem extract_videos_state_independent (v w d : JSON) :
    (extract_videos v d).1 = (extract_videos w d).1 := by
  unfold extract_videos
  cases h : locatePhase d with
  | none => rfl
  | some p => obtain ⟨vids, upd⟩ := p; rfl

/-- C9: `_build_continuation_url` always succeeds and is a pure
function of the token, the stored visitor data and the API key: the
URL is the fixed browse endpoint keyed by the API key, the headers are
the fixed client name and version, and the POST body carries the token
and the visitor data inside the fixed client context. -/
theorem build_continuation_url_spec (k t : String) (vd : JSON) :
    (build_continuation_url k vd t).1
        = "https://www.youtube.com/youtubei/v1/browse?key=" ++ k
    ∧ (build_continuation_url k vd t).2.1
        = [("X-YouTube-Client-Name", "1"),
           ("X-YouTube-Client-Version", "2.20200720.00.02")]
    ∧ getKey (build_continuation_url k vd t).2.2 "continuation"
        = .ok (.str t)
    ∧ (do
        let c ← getKey (build_continuation_url k vd t).2.2 "context"
        let cl ← getKey c "client"
        getKey cl "visitorData") = .ok vd
    ∧ (do
        let c ← getKey (build_continuation_url k vd t).2.2 "context"
        let cl ← getKey c "client"
        getKey cl "clientName") = .ok (.str "WEB")
    ∧ (do
        let c ← getKey (build_continuation_url k vd t).2.2 "context"
        let cl ← getKey c "client"
        getKey cl "clientVersion") = .ok (.str "2.20200720.00.02") := by
  refine ⟨rfl, rfl, ?_, ?_, ?_, ?_⟩ <;> rfl

/-- C10: when a video-list node is located but is the empty list, the
result is the empty identifier list and no continuation token, with no
exception: the missing last element is absorbed as an index mismatch
and the extraction loops produce nothing. -/
theorem extract_videos_empty_list (v d : JSON) (upd : Option JSON)
    (h : locatePhase d = some (.arr [], upd)) :
    (extract_videos v d).1 = .ok ([], .null) := by
  unfold extract_videos
  rw [h]
  rfl

/-- C10 witness: a flat continuation payload with an empty
continuation-items list. -/
theorem extract_videos_empty_list_witness :
    (extract_videos .null exampleP10).1 = .ok ([], .null) :=
  extract_videos_empty_list .null exampleP10 none rfl

theorem pySliceUpToLast_error (w : JSON) (e : PyErr)
    (h : pySliceUpToLast w = .error e) : e = .typeError := by
  cases w <;> simp [pySliceUpToLast] at h <;> first | exact h | exact h.symm

/-- C2 counterexample: on a payload whose videos-tab path locates a
nonempty, fully extractable video list but whose visitor-data location
is absent, the located list is not processed and returned: the call
yields the empty list and no token (the stored visitor value is,
as the claim also says, left unchanged). -/
theorem visitor_failure_discards_located_list :
    locateVideosTab exampleP2 = .ok (.arr [mkStd "DDDDDDDDDDD"])
    ∧ standardId (mkStd "DDDDDDDDDDD") = .ok "/watch?v=DDDDDDDDDDD"
    ∧ extract_videos .null exampleP2 = (.ok ([], .null), .null) :=
  ⟨rfl, rfl, rfl⟩

/-- C2 amended: when an initial-page tab path locates a video list but
the visitor-data location is structurally absent, the stored visitor
value is left unchanged, but the located list is discarded rather than
processed: classification falls through to the two
continuation-response shapes, whose outcome (or the empty terminal
result) is what the call returns. -/
theorem extract_videos_visitor_failure_falls_through (v d vids : JSON)
    (h1 : locateInitialTabs d = .ok vids)
    (h2 : ∃ e, locateVisitorData d = .error e) :
    extract_videos v d =
      ((match locateContinuationShapes d with
        | .ok w => processLocated w
        | .error _ => .ok ([], .null)), v) := by
  obtain ⟨e, h2⟩ := h2
  unfold extract_videos locatePhase
  rw [h1, h2]
  cases hc : locateContinuationShapes d with
  | ok w => rfl
  | error e2 => rfl

/-- C2 amended witness. -/
theorem extract_videos_visitor_failure_falls_through_witness :
    extract_videos .null exampleP2 = (.ok ([], .null), .null) :=
  extract_videos_visitor_failure_falls_through .null exampleP2
    (.arr [mkStd "DDDDDDDDDDD"]) rfl ⟨.keyError, rfl⟩

/-- C3 counterexample: on this payload the first (standard-shape)
attempt appends one entry and then fails, and the returned identifier
list still contains that entry, ahead of the short-shape entries of
all elements: the entry is the one `standardId` produces, not the one
`shortId` would. -/
theorem batch_switch_keeps_first_attempt_entries :
    extract_videos .null exampleP3
      = (.ok (["/watch?v=AAAAAAAAAAA", "/watch?v=BBBBBBBBBBB",
               "/watch?v=CCCCCCCCCCC"], .null), .null)
    ∧ standardId exampleBoth = .ok "/watch?v=AAAAAAAAAAA"
    ∧ (runStandardLoop [exampleBoth, mkShort "shorts-CCCCCCCCCCC"] []).2 = false
    ∧ shortId exampleBoth = .ok "/watch?v=BBBBBBBBBBB" :=
  ⟨rfl, rfl, rfl, rfl⟩

/-- C3 amended: the shape choice is batch-level — when the
standard-shape loop fails partway, the short shape is applied to all
elements — but the entries the abandoned standard attempt had already
appended are kept, ahead of the short-shape entries of the whole
batch. -/
theorem extract_ids_batch_fallback (xs : List JSON) (ys : List String)
    (h1 : (runStandardLoop xs []).2 = false)
    (h2 : shortIdsAll xs = .ok ys) :
    extractIdsPhase (.arr xs) = .ok ((runStandardLoop xs []).1 ++ ys) := by
  cases hr : runStandardLoop xs [] with
  | mk acc b =>
      rw [hr] at h1
      simp only at h1
      subst h1
      have hstep : extractIdsPhase (.arr xs) = runShortLoop xs acc := by
        show (match runStandardLoop xs [] with
              | (acc, true) => Except.ok acc
              | (acc, false) => runShortLoop xs acc) = runShortLoop xs acc
        rw [hr]
      rw [hstep, runShortLoop_ok xs acc ys h2]

/-- C3 amended witness. -/
theorem extract_ids_batch_fallback_witness :
    extractIdsPhase (.arr [exampleBoth, mkShort "shorts-CCCCCCCCCCC"])
      = .ok ["/watch?v=AAAAAAAAAAA", "/watch?v=BBBBBBBBBBB",
             "/watch?v=CCCCCCCCCCC"] :=
  extract_ids_batch_fallback [exampleBoth, mkShort "shorts-CCCCCCCCCCC"]
    ["/watch?v=BBBBBBBBBBB", "/watch?v=CCCCCCCCCCC"] rfl rfl

/-- C4 counterexample: a type mismatch at the continuation-marker
inspection (the located list ends in a bare string) escapes
`_extract_videos` as a raised exception instead of being absorbed. -/
theorem type_mismatch_escapes_extract_videos :
    extract_videos .null exampleP4 = (.error .typeError, .null)
    ∧ locatePhase exampleP4 = some (.arr [.str "oops"], none) :=
  ⟨rfl, rfl⟩

/-- C4 amended: structural mismatches at the four list-locating
attempts never escape — when every shape fails the call returns the
empty terminal result — and at the continuation-marker inspection key
and index mismatches are absorbed as "no token", while a type mismatch
is the one structural failure that escapes that step. -/
theorem locate_mismatch_never_escapes (v d w : JSON) :
    (locatePhase d = none → extract_videos v d = (.ok ([], .null), v))
    ∧ (∀ e, continuationPhase w = .error e → e = .typeError) := by
  constructor
  · intro h
    unfold extract_videos
    rw [h]
  · intro e h
    unfold continuationPhase at h
    cases hx : extractContinuationToken w with
    | ok tok =>
        rw [hx] at h
        cases hw : pySliceUpToLast w with
        | ok t => rw [hw] at h; cases h
        | error e2 =>
            rw [hw] at h
            injection h with h
            exact h ▸ pySliceUpToLast_error w e2 hw
    | error e1 =>
        rw [hx] at h
        cases e1 with
        | keyError => cases h
        | indexError => cases h
        | typeError => injection h with h; exact h.symm

/-- C4 amended witness. -/
theorem locate_mismatch_never_escapes_witness :
    extract_videos .null (.obj [("a", .num 3)]) = (.ok ([], .null), .null)
    ∧ PyErr.typeError = PyErr.typeError :=
  ⟨(locate_mismatch_never_escapes .null (.obj [("a", .num 3)])
      (.arr [.num 1])).1 rfl,
   (locate_mismatch_never_escapes .null (.obj [("a", .num 3)])
      (.arr [.num 1])).2 .typeError rfl⟩

/-- C5 counterexample: the last element of the located list (a number)
does not match the continuation-item shape, yet the call does not
return the full list with an absent token — it raises a type error. -/
theorem nondict_last_element_raises :
    extract_videos .null exampleP5 = (.error .typeError, .null)
    ∧ extractContinuationToken (.arr [mkStd "GGGGGGGGGGG", .num 7])
        = .error .typeError :=
  ⟨rfl, rfl⟩

/-- C5 amended: when the last element of the located list matches the
continuation-item shape its embedded token is returned and the
trailing marker is excluded from the working list; when the marker
lookup fails with a key or index mismatch (a final ordinary video, or
an empty list) the token is absent and all elements are kept; a type
mismatch along the marker path instead escapes as an error. -/
theorem continuation_marker_inspection (xs : List JSON) (tok videos : JSON) :
    (extractContinuationToken (.arr xs) = .ok tok →
        continuationPhase (.arr xs) = .ok (.arr xs.dropLast, tok))
    ∧ (extractContinuationToken videos = .error .keyError →
        continuationPhase videos = .ok (videos, .null))
    ∧ (extractContinuationToken videos = .error .indexError →
        continuationPhase videos = .ok (videos, .null))
    ∧ (extractContinuationToken videos = .error .typeError →
        continuationPhase videos = .error .typeError) := by
  refine ⟨?_, ?_, ?_, ?_⟩ <;> intro h <;>
    (unfold continuationPhase; rw [h]; try rfl)

/-- C5 amended witness. -/
theorem continuation_marker_inspection_witness :
    continuationPhase (.arr [mkStd "GGGGGGGGGGG", exampleMarker])
        = .ok (.arr [mkStd "GGGGGGGGGGG"], .str "TOKEN-12345")
    ∧ continuationPhase (.arr [mkStd "GGGGGGGGGGG"])
        = .ok (.arr [mkStd "GGGGGGGGGGG"], .null)
    ∧ continuationPhase (.arr []) = .ok (.arr [], .null)
    ∧ continuationPhase (.arr [.bool true]) = .error .typeError :=
  ⟨(continuation_marker_inspection [mkStd "GGGGGGGGGGG", exampleMarker]
      (.str "TOKEN-12345") .null).1 rfl,
   (continuation_marker_inspection [] .null
      (.arr [mkStd "GGGGGGGGGGG"])).2.1 rfl,
   (continuation_marker_inspection [] .null (.arr [])).2.2.1 rfl,
   (continuation_marker_inspection [] .null (.arr [.bool true])).2.2.2 rfl⟩

/-- C6: the identifier list returned by one call contains no
duplicates and is the raw extracted sequence with every occurrence
after the first removed: the order-preserving first-wins
deduplication — a duplicate-free subsequence of the raw sequence with
the same members, where each kept head removes its later
occurrences. -/
theorem extract_videos_dedup (v d vids : JSON) (upd : Option JSON)
    (trimmed cont : JSON) (raw : List String)
    (h1 : locatePhase d = some (vids, upd))
    (h2 : continuationPhase vids = .ok (trimmed, cont))
    (h3 : extractIdsPhase trimmed = .ok raw) :
    (extract_videos v d).1 = .ok (uniqueify raw, cont)
    ∧ (uniqueify raw).Nodup
    ∧ List.Sublist (uniqueify raw) raw
    ∧ (∀ a, a ∈ uniqueify raw ↔ a ∈ raw)
    ∧ (∀ x l, uniqueify (x :: l)
        = x :: uniqueify (l.filter (fun y => y != x))) := by
  refine ⟨?_, uniqueify_nodup raw, uniqueify_sublist raw,
    mem_uniqueify raw, uniqueify_cons_filter⟩
  have hloc : (extract_videos v d).1 = processLocated vids := by
    unfold extract_videos
    rw [h1]
  rw [hloc]
  simp only [processLocated, h2, h3]

/-- C6 witness: a payload with a duplicated identifier. -/
theorem extract_videos_dedup_witness :
    (extract_videos .null exampleP6).1
      = .ok (["/watch?v=EEEEEEEEEEE", "/watch?v=FFFFFFFFFFF"], .null) :=
  (extract_videos_dedup .null exampleP6
    (.arr [mkStd "EEEEEEEEEEE", mkStd "EEEEEEEEEEE", mkStd "FFFFFFFFFFF"])
    none
    (.arr [mkStd "EEEEEEEEEEE", mkStd "EEEEEEEEEEE", mkStd "FFFFFFFFFFF"])
    .null
    ["/watch?v=EEEEEEEEEEE", "/watch?v=EEEEEEEEEEE", "/watch?v=FFFFFFFFFFF"]
    rfl rfl rfl).1

/-- C7: under the short-video shape the produced watch path is the
fixed prefix followed by the last eleven characters of the entity
identifier string, and under the standard shape the video id is used
verbatim after the same prefix. -/
theorem short_and_standard_id_shapes (x : JSON) (s w : String) :
    (pathEntityId x = .ok (.str s) →
        shortId x = .ok ("/watch?v=" ++ lastChars 11 s))
    ∧ (pathVideoId x = .ok (.str w) →
        standardId x = .ok ("/watch?v=" ++ w)) := by
  constructor
  · intro h
    unfold shortId
    rw [h]
    rfl
  · intro h
    unfold standardId
    rw [h]
    rfl

/-- C7 witness. -/
theorem short_and_standard_id_shapes_witness :
    shortId exampleBoth = .ok "/watch?v=BBBBBBBBBBB"
    ∧ standardId exampleBoth = .ok "/watch?v=AAAAAAAAAAA" :=
  ⟨(short_and_standard_id_shapes exampleBoth
      "shorts-BBBBBBBBBBB" "AAAAAAAAAAA").1 rfl,
   (short_and_standard_id_shapes exampleBoth
      "shorts-BBBBBBBBBBB" "AAAAAAAAAAA").2 rfl⟩
